import Mathlib

/-!
Shallow embedding of dpxdt/client/workers.py: the work-item coordinator,
its worker threads (fetch, subprocess, timer), the barrier abstraction and
the workflow driver. Python objects are modelled as Lean structures; object
identity is modelled by an `id` field; in-place mutation is modelled by
returning updated records; Python exceptions are modelled by `PyExc` and
fallible code returns `Except PyExc _`; wall-clock instants and durations
are modelled as `Int`.
-/

namespace Workers

/-- Python exceptions that the module can raise or capture (sys.exc_info()
is modelled as the exception value alone). -/
inductive PyExc where
  | keyError (k : Nat)
  | nameError (n : String)
  | timeoutKill
  | exc (code : Nat)
deriving DecidableEq, Repr

/-- The built-in WorkItem subclasses of workers.py, used as the dynamic
dispatch key `type(item)`. -/
inductive WorkType where
  | workflowItem
  | fetchItem
  | timerItem
  | processItem
deriving DecidableEq, Repr

/-- The four Queue.Queue objects created by GetCoordinator. -/
inductive QueueId where
  | fetchQ
  | timerQ
  | workflowQ
  | completeQ
deriving DecidableEq, Repr

/-- Association-list lookup, modelling Python dict subscript `d[k]`
(None result models a KeyError site). -/
def alookup {α β : Type} [DecidableEq α] : List (α × β) → α → Option β
  | [], _ => none
  | (k, v) :: rest, key => if k = key then some v else alookup rest key

/-- Association-list update-or-insert, modelling Python dict assignment
`d[k] = v`. -/
def aset {α β : Type} [DecidableEq α] : List (α × β) → α → β → List (α × β)
  | [], key, v => [(key, v)]
  | (k, w) :: rest, key, v =>
      if k = key then (key, v) :: rest else (k, w) :: aset rest key v

/-- Association-list pop, modelling Python `d.pop(k)`: returns the value and
the dict without the entry, or `none` where Python raises KeyError. -/
def apop {α β : Type} [DecidableEq α] : List (α × β) → α → Option (β × List (α × β))
  | [], _ => none
  | (k, v) :: rest, key =>
      if k = key then some (v, rest)
      else match apop rest key with
           | none => none
           | some (w, rest2) => some (w, (k, v) :: rest2)

/-- WorkflowThread.register: `self.work_map[work_type] = queue`. -/
def register (m : List (WorkType × QueueId)) (t : WorkType) (q : QueueId) :
    List (WorkType × QueueId) :=
  aset m t q

/-- The work_map as left by WorkflowThread.__init__, which starts empty and
then calls `self.register(WorkflowItem, input_queue)`. -/
def WorkflowThread.initialWorkMap (inputQ : QueueId) : List (WorkType × QueueId) :=
  register [] .workflowItem inputQ

/-- Kinds of worker threads put into coordinator.worker_threads. -/
inductive WorkerKind where
  | fetchThread
  | timerThread
deriving DecidableEq, Repr

/-- The static wiring produced by GetCoordinator: the coordinator's
input/output queues, its work_map, and the worker_threads list with each
worker's input and output queue. -/
structure Coordinator where
  inputQ : QueueId
  outputQ : QueueId
  work_map : List (WorkType × QueueId)
  worker_threads : List (WorkerKind × QueueId × QueueId)
deriving DecidableEq, Repr

/-- GetCoordinator: creates the four queues, builds WorkflowThread
(registering WorkflowItem against workflow_queue in __init__), registers
FetchItem against fetch_queue, and installs two FetchThreads and one
TimerThread. No other register call is made. -/
def GetCoordinator : Coordinator :=
  let fetch_queue := QueueId.fetchQ
  let timer_queue := QueueId.timerQ
  let workflow_queue := QueueId.workflowQ
  let complete_queue := QueueId.completeQ
  let wm0 := WorkflowThread.initialWorkMap workflow_queue
  let wm1 := register wm0 .fetchItem fetch_queue
  { inputQ := workflow_queue
    outputQ := complete_queue
    work_map := wm1
    worker_threads :=
      [ (.fetchThread, fetch_queue, workflow_queue),
        (.fetchThread, fetch_queue, workflow_queue),
        (.timerThread, timer_queue, workflow_queue) ] }

/-- Queue chosen by WorkflowThread.handle_item's dispatch loop for a child
item of the given type: WorkflowItems go to the coordinator's own input
queue, anything else goes through `self.work_map[type(item)]` (none models
the KeyError). -/
def dispatchTarget (wm : List (WorkType × QueueId)) (inputQ : QueueId)
    (t : WorkType) : Option QueueId :=
  if t = .workflowItem then some inputQ else alookup wm t

/-! ### Timer worker (TimerThread) -/

/-- The polltime flag default (`gflags.DEFINE_float('polltime', 1.0, ...)`),
durations modelled as Int. -/
def defaultPolltime : Int := 1

/-- TimerThread state: `self.timers`, the heapq min-heap of
(ready_time, item) pairs, modelled as a list sorted ascending by key so the
head is the heap minimum; and the thread's `self.polltime`. Items are
identified by Nat ids. -/
structure TimerState where
  timers : List (Int × Nat)
  polltime : Int
deriving DecidableEq, Repr

/-- heapq.heappush on the sorted-list model of the heap: ordered insert by
(ready_time, id). -/
def heappush : List (Int × Nat) → (Int × Nat) → List (Int × Nat)
  | [], x => [x]
  | (rt, it) :: rest, (rt2, it2) =>
      if rt2 < rt ∨ (rt2 = rt ∧ it2 ≤ it) then
        (rt2, it2) :: (rt, it) :: rest
      else
        (rt, it) :: heappush rest (rt2, it2)

/-- The while-loop of TimerThread.handle_nothing: peek the heap head
(ready_time, _); wait_time := now - ready_time; if wait_time <= 0, heappop
the item and put it on the output queue, and keep looping; else set
self.polltime := wait_time and return; when the heap empties, set
self.polltime to the default. Returns (heap, polltime, output-queue puts
in order). -/
def timerDrain (now : Int) : List (Int × Nat) → List (Int × Nat) × Int × List Nat
  | [] => ([], defaultPolltime, [])
  | (rt, it) :: rest =>
      if now - rt ≤ 0 then
        match timerDrain now rest with
        | (heap, pt, out) => (heap, pt, it :: out)
      else
        ((rt, it) :: rest, now - rt, [])

/-- TimerThread.handle_nothing at wall-clock instant `now`: drain per the
loop above, returning the new state and the items placed on the output
queue. -/
def TimerThread.handle_nothing (now : Int) (st : TimerState) :
    TimerState × List Nat :=
  match timerDrain now st.timers with
  | (heap, pt, out) => (⟨heap, pt⟩, out)

/-- TimerThread.handle_item: heappush (item.ready_time, item) then run
handle_nothing. -/
def TimerThread.handle_item (now : Int) (st : TimerState) (item : Int × Nat) :
    TimerState × List Nat :=
  TimerThread.handle_nothing now ⟨heappush st.timers item, st.polltime⟩

/-! ### Work items and the workflow driver (WorkflowItem, Barrier,
WorkflowThread) -/

/-- A work item as seen by the driver: identity (`id` models Python object
identity, the key of the pending dict), dynamic type, the error slot of
WorkItem.__init__, and the done/root flags of WorkflowItem.__init__
(meaningful only when kind = workflowItem). -/
structure WItem where
  id : Nat
  kind : WorkType
  error : Option PyExc := none
  done : Bool := false
  root : Bool := false
deriving DecidableEq, Repr

/-- A value yielded by a workflow generator: either a single work item or a
list/tuple batch (`isinstance(work, (list, tuple))` in Barrier.__init__). -/
inductive YieldVal where
  | one (w : WItem)
  | many (ws : List WItem)
deriving DecidableEq, Repr

/-- The `item` local of WorkflowThread.handle_item's transition loop: None,
a single completed WItem, or a Barrier (a list subclass carrying its own
error attribute), as produced by Barrier.get_item. -/
inductive SendVal where
  | noneV
  | item (w : WItem)
  | barrierList (ws : List WItem) (err : Option PyExc)
deriving DecidableEq, Repr

/-- Evaluation of `item is not None and item.error` on the loop value: for a
single item its error slot, for a Barrier the barrier's error attribute. -/
def SendVal.errorOf : SendVal → Option PyExc
  | .noneV => none
  | .item w => w.error
  | .barrierList _ e => e

/-- What the driver does to the generator given the loop value: throw the
carried error at the yield point, or send the value
(`generator.throw(*item.error)` vs `generator.send(item)`). -/
inductive GenSignal where
  | send (v : SendVal)
  | throwE (e : PyExc)
deriving DecidableEq, Repr

/-- Outcome of resuming a generator once: it yields a next value and is left
suspended in a new state, finishes normally (StopIteration), or raises. -/
inductive GenResult where
  | yields (v : YieldVal) (s : Nat)
  | stopIter
  | raises (e : PyExc)
deriving DecidableEq, Repr

/-- A workflow generator, modelled as a transition function from suspension
state and incoming signal to outcome. The state is the generator's
program-counter-plus-locals abstraction. -/
def Gen : Type := Nat → GenSignal → GenResult

/-- Barrier: list subclass whose contents are the child items (in yield
order), plus workflow, generator suspension state, was_list, remaining and
the first-error slot, exactly the attributes set by Barrier.__init__.
`remaining` is a Python int, so Int here. -/
structure Barrier where
  workflow : WItem
  genState : Nat
  items : List WItem
  was_list : Bool
  remaining : Int
  error : Option PyExc
deriving DecidableEq, Repr

/-- Barrier.__init__: a list or tuple is copied as the contents with
was_list true; a single item becomes the one-element contents with was_list
false; remaining := len(self); error := None. -/
def Barrier.init (wf : WItem) (gs : Nat) (work : YieldVal) : Barrier :=
  match work with
  | .many ws => ⟨wf, gs, ws, true, (ws.length : Int), none⟩
  | .one w => ⟨wf, gs, [w], false, 1, none⟩

/-- The default used to model `self[0]`; unreachable for barriers built by
Barrier.init with was_list false, whose contents are the singleton [work]. -/
def defaultWItem : WItem := ⟨0, .workflowItem, none, false, false⟩

/-- Barrier.get_item: returns `self` (the list, carrying the barrier's error
attribute) if was_list, else `self[0]`. -/
def Barrier.get_item (b : Barrier) : SendVal :=
  if b.was_list then .barrierList b.items b.error
  else .item (b.items.headD defaultWItem)

/-- Barrier.finish: `self.remaining -= 1; if item.error and not self.error:
self.error = item.error`. -/
def Barrier.finish (b : Barrier) (item : WItem) : Barrier :=
  { b with
    remaining := b.remaining - 1
    error := if item.error.isSome ∧ b.error = none then item.error else b.error }

/-- The signal the transition loop delivers to the generator for a given
loop value: `if item is not None and item.error: generator.throw(*item.error)
else: generator.send(item)`. -/
def driverSignal (v : SendVal) : GenSignal :=
  match v.errorOf with
  | some e => .throwE e
  | none => .send v

/-- Driver-owned mutable state: `self.pending` (item identity to barrier
object; barriers are shared between sibling entries, so they live in a
side table keyed by barrier id) plus the id for the next barrier object. -/
structure DriverState where
  pending : List (Nat × Nat)
  barriers : List (Nat × Barrier)
  nextBid : Nat
deriving DecidableEq, Repr

/-- Effects of one handle_item call: updated driver state, puts on the
coordinator's own input queue (`self.input_queue.put(...)`), dispatch puts
on target queues chosen by kind, and the handler's return value (which
WorkerThread.run will put on the output queue). -/
structure HandleResult where
  state : DriverState
  inputPuts : List WItem
  dispatches : List (QueueId × WItem)
  ret : Option WItem
deriving DecidableEq, Repr

/-- The dispatch loop at the end of handle_item: for each child item of the
barrier, choose the target queue by kind (KeyError when the work_map has no
entry), record `self.pending[item] = barrier`, and put the item. -/
def dispatchLoop (wm : List (WorkType × QueueId)) (inputQ : QueueId) (bid : Nat) :
    List WItem → List (Nat × Nat) → List (QueueId × WItem) →
    Except PyExc (List (Nat × Nat) × List (QueueId × WItem))
  | [], pending, acc => .ok (pending, acc.reverse)
  | it :: rest, pending, acc =>
      match dispatchTarget wm inputQ it.kind with
      | none => .error (.keyError it.id)
      | some q => dispatchLoop wm inputQ bid rest (aset pending it.id bid) ((q, it) :: acc)

/-- Allocate the barrier object and run the dispatch loop over its items. -/
def dispatchBarrier (wm : List (WorkType × QueueId)) (inputQ : QueueId)
    (st : DriverState) (b : Barrier) : Except PyExc HandleResult :=
  match dispatchLoop wm inputQ st.nextBid b.items st.pending [] with
  | .error e => .error e
  | .ok (pending2, puts) =>
      .ok ⟨⟨pending2, aset st.barriers st.nextBid b, st.nextBid + 1⟩, [], puts, none⟩

/-- The `while True` transition loop of WorkflowThread.handle_item: deliver
the loop value to the generator (throw or send); on StopIteration mark the
workflow done and either return it (root) or put it on the input queue; on
any other exception also record the error; on a yield build a Barrier and
either break to dispatch (non-empty) or loop again with item := None
(empty). Python loops unboundedly; `none` models running out of fuel. -/
def advance (gen : Gen) (wm : List (WorkType × QueueId)) (inputQ : QueueId) :
    Nat → DriverState → WItem → Nat → SendVal → Option (Except PyExc HandleResult)
  | 0, _, _, _, _ => none
  | fuel + 1, st, wf, gs, v =>
      match gen gs (driverSignal v) with
      | .stopIter =>
          let wf2 := { wf with done := true }
          if wf2.root then some (.ok ⟨st, [], [], some wf2⟩)
          else some (.ok ⟨st, [wf2], [], none⟩)
      | .raises e =>
          let wf2 := { wf with done := true, error := some e }
          if wf2.root then some (.ok ⟨st, [], [], some wf2⟩)
          else some (.ok ⟨st, [wf2], [], none⟩)
      | .yields y gs2 =>
          let b := Barrier.init wf gs2 y
          if b.items = [] then advance gen wm inputQ fuel st wf gs2 .noneV
          else some (dispatchBarrier wm inputQ st b)

/-- WorkflowThread.handle_item. Branch A (fresh workflow: a WorkflowItem
with done false): instantiate the generator (`item.run(*args)`, whose
initial suspension state is given by `start`) and enter the loop with item
:= None. Branch B (completion of a dispatched child): pop the pending entry
(KeyError when absent), finish the barrier, return early when the barrier
is neither drained nor errored, otherwise resume with barrier.get_item(). -/
def WorkflowThread.handle_item (gen : Gen) (wm : List (WorkType × QueueId))
    (inputQ : QueueId) (start : WItem → Nat) (fuel : Nat) (st : DriverState)
    (incoming : WItem) : Option (Except PyExc HandleResult) :=
  if incoming.kind = .workflowItem ∧ incoming.done = false then
    advance gen wm inputQ fuel st incoming (start incoming) .noneV
  else
    match apop st.pending incoming.id with
    | none => some (.error (.keyError incoming.id))
    | some (bid, pending2) =>
        let b := (alookup st.barriers bid).getD
          (Barrier.init defaultWItem 0 (.many []))
        let b2 := b.finish incoming
        let st2 : DriverState := ⟨pending2, aset st.barriers bid b2, st.nextBid⟩
        if b2.remaining ≠ 0 ∧ b2.error = none then
          some (.ok ⟨st2, [], [], none⟩)
        else
          advance gen wm inputQ fuel st2 b2.workflow b2.genState b2.get_item

/-- Result of one iteration of WorkerThread.run specialised to the driver:
final driver state, the incoming item as left by the iteration, and the
puts made on the input, dispatch-target and output queues. -/
structure StepResult where
  state : DriverState
  item : WItem
  inputPuts : List WItem
  dispatches : List (QueueId × WItem)
  outputPuts : List WItem
deriving DecidableEq, Repr

/-- One iteration of WorkerThread.run on the coordinator: call handle_item;
if it raises, set the incoming item's error slot to the exception and put
that same item on the output queue; else put the returned item (if any) on
the output queue. (In the pending-pop KeyError path the driver state is
unchanged, as dict.pop mutates nothing when it raises.) -/
def WorkflowThread.step (gen : Gen) (wm : List (WorkType × QueueId))
    (inputQ : QueueId) (start : WItem → Nat) (fuel : Nat) (st : DriverState)
    (incoming : WItem) : Option StepResult :=
  match WorkflowThread.handle_item gen wm inputQ start fuel st incoming with
  | none => none
  | some (.error e) =>
      let failed := { incoming with error := some e }
      some ⟨st, failed, [], [], [failed]⟩
  | some (.ok r) =>
      some ⟨r.state, incoming, r.inputPuts, r.dispatches, r.ret.toList⟩

/-! ### The abstract worker loop (WorkerThread.run) -/

/-- A subclass handler as WorkerThread.run sees it: given the consumed item
it either raises an exception or returns an optional next item; in both
cases the consumed item object may have been mutated in place, so the
handler also returns the item as it left it (same object, hence same id). -/
def Handler : Type := WItem → Except PyExc (Option WItem) × WItem

/-- The body of one iteration of WorkerThread.run after a successful queue
get: run handle_item; on an exception set `item.error = sys.exc_info()` and
put the same item on the output queue; on success put the returned next
item (if truthy) on the output queue and touch nothing else. Returns the
consumed item as the iteration left it and the output-queue puts. -/
def WorkerThread.processOne (handler : Handler) (item : WItem) :
    WItem × List WItem :=
  match handler item with
  | (.error e, item2) =>
      let failed := { item2 with error := some e }
      (failed, [failed])
  | (.ok next, item2) => (item2, next.toList)

/-- WorkerThread.run over a finite trace of consumed items: each item is
processed by processOne and the output-queue puts are concatenated in
order. -/
def WorkerThread.runTrace (handler : Handler) : List WItem → List WItem
  | [] => []
  | item :: rest =>
      (WorkerThread.processOne handler item).2 ++ WorkerThread.runTrace handler rest

/-! ### Subprocess worker (ProcessItem, ProcessThread) -/

/-- ProcessItem attributes: the fields bound by __init__ (log_path,
timeout_seconds, return_code := None, plus the inherited error slot), and
`returncode`, the distinct attribute that ProcessThread.handle_item later
assigns; none models the attribute being unset. -/
structure ProcessItem where
  log_path : String
  timeout_seconds : Int
  return_code : Option Int
  returncode : Option Int
  error : Option PyExc
deriving DecidableEq, Repr

/-- ProcessItem.__init__: binds log_path and timeout_seconds, initialises
return_code to None; no `returncode` attribute is created and the inherited
error slot is None. -/
def ProcessItem.init (log_path : String) (timeout_seconds : Int) : ProcessItem :=
  ⟨log_path, timeout_seconds, none, none, none⟩

/-- The polling loop of ProcessThread.handle_item. The spawned process is
modelled by (exitStep, exitCode): process.poll() observes a returncode from
poll number exitStep onwards. Poll number i happens at run_time i*polltime
(each earlier iteration slept FLAGS.polltime). While the process runs, a
run_time above item.timeout_seconds, or the interrupted flag, kills it and
raises TimeoutError; on natural exit `item.returncode = process.returncode`
and the item is returned. `none` models running out of fuel. -/
def processLoop (polltime : Int) (interrupted : Bool) (exitStep : Nat)
    (exitCode : Int) : Nat → Nat → ProcessItem → Option (Except PyExc ProcessItem)
  | 0, _, _ => none
  | fuel + 1, i, item =>
      if exitStep ≤ i then
        some (.ok { item with returncode := some exitCode })
      else
        if (i : Int) * polltime > item.timeout_seconds ∨ interrupted then
          some (.error .timeoutKill)
        else
          processLoop polltime interrupted exitStep exitCode fuel (i + 1) item

/-- ProcessThread.handle_item: open the log file, spawn the process and run
the polling loop from poll number 0. -/
def ProcessThread.handle_item (polltime : Int) (interrupted : Bool)
    (exitStep : Nat) (exitCode : Int) (fuel : Nat) (item : ProcessItem) :
    Option (Except PyExc ProcessItem) :=
  processLoop polltime interrupted exitStep exitCode fuel 0 item

/-! ### Fetch worker (FetchItem, FetchThread) -/

/-- The names bound at module scope by the import statements of workers.py
(plus gflags and FLAGS from the local-library imports). `urllib` is not
among them: only urllib2 is imported. -/
def moduleNames : List String :=
  ["Queue", "heapq", "json", "logging", "subprocess", "sys", "threading",
   "time", "urllib2", "gflags", "FLAGS"]

/-- Python name resolution at module scope: a lookup of an unbound name
raises NameError. -/
def nameBound (n : String) : Bool := moduleNames.contains n

/-- FetchItem attributes bound by __init__: url, post (None or a dict of
form parameters), timeout_seconds, and the result slots status_code, data,
headers initialised to None, plus the inherited error slot. -/
structure FetchItem where
  url : String
  post : Option (List (String × String))
  timeout_seconds : Int
  status_code : Option Nat
  data : Option String
  headers : Option (List (String × String))
  error : Option PyExc
deriving DecidableEq, Repr

/-- FetchItem.__init__ with its defaults (post=None, timeout_seconds=30). -/
def FetchItem.init (url : String) (post : Option (List (String × String)))
    (timeout_seconds : Int) : FetchItem :=
  ⟨url, post, timeout_seconds, none, none, none, none⟩

/-- Python truthiness of `item.post`: false for None and for an empty dict. -/
def dictTruthy (post : Option (List (String × String))) : Bool :=
  match post with
  | none => false
  | some d => d ≠ []

/-- What urllib2.urlopen does for a given request, as seen by handle_item:
a successful response with code, headers and body; an HTTPError carrying a
code; or a URLError (DNS/connect/reset). -/
inductive HttpResult where
  | success (code : Nat) (headers : List (String × String)) (body : String)
  | httpError (code : Nat)
  | urlError
deriving DecidableEq, Repr

/-- Observable outcome of one FetchThread.handle_item call: the raised
exception or returned item, whether urllib2.urlopen was reached, and
whether the try/finally's finally block (the rate-limit wait computation
and possible sleep) ran. -/
structure FetchOutcome where
  result : Except PyExc FetchItem
  requested : Bool
  finallyRan : Bool
deriving Repr

/-- The try/finally body of FetchThread.handle_item: urlopen, record
status_code and headers, read the body only on status 200; an HTTPError
records its code; a URLError is swallowed (TODO in the source); in all
three paths the item is returned and the finally block runs. -/
def fetchTryBlock (web : HttpResult) (item : FetchItem) : FetchOutcome :=
  match web with
  | .success code hdrs body =>
      let item2 := { item with status_code := some code, headers := some hdrs }
      let item3 := if code = 200 then { item2 with data := some body } else item2
      ⟨.ok item3, true, true⟩
  | .httpError code => ⟨.ok { item with status_code := some code }, true, true⟩
  | .urlError => ⟨.ok item, true, true⟩

/-- FetchThread.handle_item: before the try statement, `if item.post: data =
urllib.urlencode(item.post)`. The name urllib is unbound at module scope,
so a truthy post raises NameError right there: the request is never made
and the finally block is never entered (the try statement was not reached).
Otherwise the try/finally body runs. -/
def FetchThread.handle_item (web : HttpResult) (item : FetchItem) : FetchOutcome :=
  if dictTruthy item.post then
    if nameBound "urllib" then fetchTryBlock web item
    else ⟨.error (.nameError "urllib"), false, false⟩
  else fetchTryBlock web item

/-- One iteration of WorkerThread.run on a FetchThread: on an exception from
handle_item the same item is put on the output queue with its error slot
set; on success the returned item is put. -/
def FetchThread.step (web : HttpResult) (item : FetchItem) :
    FetchItem × List FetchItem :=
  match (FetchThread.handle_item web item).result with
  | .error e =>
      let failed := { item with error := some e }
      (failed, [failed])
  | .ok item2 => (item, [item2])

/-! ### Helper lemmas about Barrier -/

theorem Barrier.finish_items (b : Barrier) (i : WItem) :
    (b.finish i).items = b.items := rfl

theorem Barrier.finish_was_list (b : Barrier) (i : WItem) :
    (b.finish i).was_list = b.was_list := rfl

theorem Barrier.foldl_finish_items (fs : List WItem) :
    ∀ b : Barrier, (fs.foldl Barrier.finish b).items = b.items := by
  induction fs with
  | nil => intro b; rfl
  | cons f rest ih => intro b; simpa using ih (b.finish f)

theorem Barrier.foldl_finish_was_list (fs : List WItem) :
    ∀ b : Barrier, (fs.foldl Barrier.finish b).was_list = b.was_list := by
  induction fs with
  | nil => intro b; rfl
  | cons f rest ih => intro b; simpa using ih (b.finish f)

theorem Barrier.finish_error_of_none (b : Barrier) (i : WItem)
    (hb : b.error = none) (hi : i.error = none) : (b.finish i).error = none := by
  simp [Barrier.finish, hb, hi]

theorem Barrier.finish_error_first (b : Barrier) (i : WItem) (e : PyExc)
    (hb : b.error = none) (hi : i.error = some e) : (b.finish i).error = some e := by
  simp [Barrier.finish, hb, hi]

theorem Barrier.finish_error_keeps (b : Barrier) (i : WItem) (e : PyExc)
    (hb : b.error = some e) : (b.finish i).error = some e := by
  simp [Barrier.finish, hb]

theorem Barrier.foldl_finish_error_none (fs : List WItem) :
    ∀ b : Barrier, b.error = none → (∀ x ∈ fs, x.error = none) →
    (fs.foldl Barrier.finish b).error = none := by
  induction fs with
  | nil => intro b hb _; simpa using hb
  | cons f rest ih =>
      intro b hb hall
      have hf : f.error = none := hall f (by simp)
      have : (b.finish f).error = none := Barrier.finish_error_of_none b f hb hf
      simpa using ih (b.finish f) this (fun x hx => hall x (by simp [hx]))

theorem Barrier.foldl_finish_error_keeps (fs : List WItem) (e : PyExc) :
    ∀ b : Barrier, b.error = some e → (fs.foldl Barrier.finish b).error = some e := by
  induction fs with
  | nil => intro b hb; simpa using hb
  | cons f rest ih =>
      intro b hb
      simpa using ih (b.finish f) (Barrier.finish_error_keeps b f e hb)

/-! ### Claim theorems -/

/-- Claim C1. The claim says GetCoordinator's work map binds a channel to
every built-in yieldable kind, the timer channel to Timer Items included.
The code registers only WorkflowItem (in WorkflowThread.__init__) and
FetchItem (in GetCoordinator); register(TimerItem, timer_queue) is never
called, even though the timer queue and a TimerThread consuming it are
built, so dispatch of a yielded TimerItem hits a KeyError instead of the
timer channel. -/
theorem C1_work_map_lacks_timer_binding :
    alookup GetCoordinator.work_map .workflowItem = some .workflowQ ∧
    alookup GetCoordinator.work_map .fetchItem = some .fetchQ ∧
    alookup GetCoordinator.work_map .timerItem = none ∧
    dispatchTarget GetCoordinator.work_map GetCoordinator.inputQ .timerItem = none ∧
    GetCoordinator.worker_threads.contains (.timerThread, .timerQ, .workflowQ) = true := by
  refine ⟨rfl, rfl, rfl, rfl, rfl⟩

/-- Claim C2. The claim says a handle_nothing tick at time now pops and
emits exactly the queued timer items with ready_time ≤ now. The code
computes wait_time = now - ready_time and pops when wait_time ≤ 0, i.e.
when ready_time ≥ now: at now = 20 an overdue item with ready_time 10 is
retained (and polltime is set to the overdue amount 10), while a future
item with ready_time 30 is emitted immediately. -/
theorem C2_handle_nothing_comparison_inverted :
    TimerThread.handle_nothing 20 ⟨[(10, 1)], 1⟩ = (⟨[(10, 1)], 10⟩, []) ∧
    TimerThread.handle_nothing 20 ⟨[(30, 2)], 1⟩ = (⟨[], 1⟩, [2]) := by
  refine ⟨rfl, rfl⟩

/-- Claim C5. A barrier built from a batch yield [a, b, c] answers
get_item() with the list of exactly those items in the original yield
order, and this is stable under any sequence of finish() calls (completion
order does not reorder or replace the contents); a barrier built from a
single yielded item answers get_item() with that item itself, not a
list. -/
theorem C5_get_item_preserves_shape (wf : WItem) (gs : Nat) (l : List WItem)
    (a : WItem) (fs : List WItem) :
    (Barrier.init wf gs (.many l)).get_item = .barrierList l none ∧
    (fs.foldl Barrier.finish (Barrier.init wf gs (.many l))).items = l ∧
    (fs.foldl Barrier.finish (Barrier.init wf gs (.many l))).get_item =
      .barrierList l (fs.foldl Barrier.finish (Barrier.init wf gs (.many l))).error ∧
    (Barrier.init wf gs (.one a)).get_item = .item a := by
  have hi := Barrier.foldl_finish_items fs (Barrier.init wf gs (.many l))
  have hw := Barrier.foldl_finish_was_list fs (Barrier.init wf gs (.many l))
  set B := fs.foldl Barrier.finish (Barrier.init wf gs (.many l)) with hB
  simp only [Barrier.init] at hi hw
  refine ⟨rfl, hi, ?_, rfl⟩
  simp [Barrier.get_item, hi, hw]

/-- Claim C6. Over a batch barrier whose completions arrive as pre ++ bad ::
post, where every item of pre completed without error and bad carries error
e: after all finish() calls the barrier's error slot is exactly e
(first-error-wins, later errors never overwrite), and the driver's
transition loop delivers generator.throw(e) at the yield point, since the
value sent back is the barrier itself carrying that error. -/
theorem C6_first_error_wins (wf : WItem) (gs : Nat) (l : List WItem)
    (pre post : List WItem) (bad : WItem) (e : PyExc)
    (hpre : ∀ x ∈ pre, x.error = none) (hbad : bad.error = some e) :
    ((pre ++ bad :: post).foldl Barrier.finish (Barrier.init wf gs (.many l))).error
      = some e ∧
    driverSignal
      ((pre ++ bad :: post).foldl Barrier.finish
        (Barrier.init wf gs (.many l))).get_item = .throwE e := by
  have hb0 : (Barrier.init wf gs (.many l)).error = none := rfl
  have hpreNone :
      (pre.foldl Barrier.finish (Barrier.init wf gs (.many l))).error = none :=
    Barrier.foldl_finish_error_none pre (Barrier.init wf gs (.many l)) hb0 hpre
  have hfirst :
      ((pre.foldl Barrier.finish (Barrier.init wf gs (.many l))).finish bad).error
        = some e :=
    Barrier.finish_error_first _ bad e hpreNone hbad
  have herr :
      ((pre ++ bad :: post).foldl Barrier.finish
        (Barrier.init wf gs (.many l))).error = some e := by
    rw [List.foldl_append]
    simpa [List.foldl_cons] using
      Barrier.foldl_finish_error_keeps post e _ hfirst
  have hw := Barrier.foldl_finish_was_list (pre ++ bad :: post)
    (Barrier.init wf gs (.many l))
  set B := (pre ++ bad :: post).foldl Barrier.finish (Barrier.init wf gs (.many l))
    with hB
  simp only [Barrier.init] at hw
  refine ⟨herr, ?_⟩
  simp [Barrier.get_item, hw, driverSignal, SendVal.errorOf, herr]

/-- A child that completed without error, for witnesses. -/
def wOk1 : WItem := ⟨1, .fetchItem, none, false, false⟩

/-- The first child to complete with an error, for witnesses. -/
def wBad : WItem := ⟨2, .fetchItem, some (.exc 7), false, false⟩

/-- A child completing after the errored one, for witnesses. -/
def wOk2 : WItem := ⟨3, .fetchItem, none, false, false⟩

/-- Witness for C6 at a concrete three-child batch whose second completion
carries the first error. -/
theorem C6_first_error_wins_witness :
    (([wOk1] ++ wBad :: [wOk2]).foldl Barrier.finish
      (Barrier.init defaultWItem 0 (.many [wOk1, wBad, wOk2]))).error = some (.exc 7) ∧
    driverSignal
      (([wOk1] ++ wBad :: [wOk2]).foldl Barrier.finish
        (Barrier.init defaultWItem 0 (.many [wOk1, wBad, wOk2]))).get_item =
      .throwE (.exc 7) :=
  C6_first_error_wins defaultWItem 0 [wOk1, wBad, wOk2] [wOk1] [wOk2] wBad (.exc 7)
    (by decide) (by decide)

/-- Natural-exit behaviour of the subprocess polling loop: when the worker
is not interrupted, the process exits at poll exitStep, every earlier poll
is within the timeout, and there is fuel to reach exitStep, the loop
returns the item with the `returncode` attribute set (and no other field
touched). -/
theorem processLoop_natural_exit (polltime exitCode : Int) (exitStep : Nat) :
    ∀ (fuel i : Nat) (item : ProcessItem), 0 ≤ polltime →
    (exitStep : Int) * polltime ≤ item.timeout_seconds →
    i ≤ exitStep → exitStep < i + fuel →
    processLoop polltime false exitStep exitCode fuel i item =
      some (.ok { item with returncode := some exitCode }) := by
  intro fuel
  induction fuel with
  | zero => intro i item _ _ hi hf; omega
  | succ n ih =>
      intro i item hp ht hi hf
      by_cases hle : exitStep ≤ i
      · simp [processLoop, hle]
      · have hlt : i < exitStep := by omega
        have hmul : (i : Int) * polltime ≤ item.timeout_seconds := by
          calc (i : Int) * polltime ≤ (exitStep : Int) * polltime := by
                apply mul_le_mul_of_nonneg_right _ hp
                exact_mod_cast Nat.le_of_lt hlt
            _ ≤ item.timeout_seconds := ht
        have hnot : ¬((i : Int) * polltime > item.timeout_seconds) := not_lt.mpr hmul
        simp only [processLoop, if_neg hle, hnot, or_false, if_false]
        exact ih (i + 1) item hp ht (by omega) (by omega)

/-- Claim C3. The claim says a natural exit before the timeout is recorded
in the item's declared return-code field (the `return_code` attribute that
ProcessItem.__init__ initialises). The code instead assigns
`item.returncode` (no underscore), a fresh attribute: at polltime 1, a
process exiting with status 0 at poll 3 against a 30-second timeout comes
back with returncode = 0 but with the declared return_code still None, and
the error slot unset. -/
theorem C3_exit_status_lands_in_wrong_attribute :
    ProcessThread.handle_item 1 false 3 0 10 (ProcessItem.init "log" 30) =
      some (.ok { ProcessItem.init "log" 30 with returncode := some 0 }) ∧
    { ProcessItem.init "log" 30 with returncode := some 0 }.return_code = none ∧
    { ProcessItem.init "log" 30 with returncode := some 0 }.returncode = some 0 ∧
    { ProcessItem.init "log" 30 with returncode := some 0 }.error = none := by
  refine ⟨?_, rfl, rfl, rfl⟩
  exact processLoop_natural_exit 1 0 3 10 0 (ProcessItem.init "log" 30)
    (by norm_num) (by norm_num [ProcessItem.init]) (by omega) (by omega)

/-- The constant generator used by concrete driver scenarios: it finishes
immediately (its behaviour is irrelevant to the orphan-completion path,
which never reaches the generator). -/
def c4Gen : Gen := fun _ _ => .stopIter

/-- A completed fetch child arriving at the driver. -/
def c4Item : WItem := ⟨7, .fetchItem, none, false, false⟩

/-- The same child after the worker loop captured the pending-pop
KeyError. -/
def c4ItemFailed : WItem := ⟨7, .fetchItem, some (.keyError 7), false, false⟩

/-- Claim C4 counterexample. A fetch child arriving with no pending entry
(empty pending map) is not dropped silently: the driver's
`self.pending.pop(item)` raises KeyError, WorkerThread.run captures it into
the item's error slot (which was None) and puts the item on the driver's
output channel. -/
theorem C4_counterexample :
    WorkflowThread.step c4Gen [] .workflowQ (fun _ => 0) 5 ⟨[], [], 0⟩ c4Item =
      some ⟨⟨[], [], 0⟩, c4ItemFailed, [], [], [c4ItemFailed]⟩ ∧
    c4ItemFailed.error ≠ c4Item.error := by
  refine ⟨by decide, by decide⟩

/-- Claim C4 as amended. For every child item that arrives at the driver
after its barrier has been removed from the pending map, the pop raises
KeyError; the worker loop captures that KeyError into the item's error slot
and emits the item on the driver's output channel; no input-queue put or
dispatch happens and the driver state is unchanged. -/
theorem C4_orphan_completion_keyerror (gen : Gen) (wm : List (WorkType × QueueId))
    (inputQ : QueueId) (start : WItem → Nat) (fuel : Nat) (st : DriverState)
    (incoming : WItem)
    (hkind : ¬(incoming.kind = .workflowItem ∧ incoming.done = false))
    (hpend : apop st.pending incoming.id = none) :
    WorkflowThread.step gen wm inputQ start fuel st incoming =
      some ⟨st, { incoming with error := some (.keyError incoming.id) }, [], [],
            [{ incoming with error := some (.keyError incoming.id) }]⟩ := by
  simp [WorkflowThread.step, WorkflowThread.handle_item, hkind, hpend]

/-- Witness for C4's amended theorem at a concrete orphan completion. -/
theorem C4_orphan_completion_keyerror_witness :
    WorkflowThread.step c4Gen [] .workflowQ (fun _ => 0) 5 ⟨[], [], 0⟩ c4Item =
      some ⟨⟨[], [], 0⟩, c4ItemFailed, [], [], [c4ItemFailed]⟩ := by
  have h := C4_orphan_completion_keyerror c4Gen [] .workflowQ (fun _ => 0) 5
    ⟨[], [], 0⟩ c4Item (by decide) (by decide)
  simpa [c4Item, c4ItemFailed] using h

/-- Claim C7. When the generator raises e at a resume (send or throw), the
transition loop marks the workflow done, captures e in its error slot, and
then branches on root: a root workflow is returned by handle_item (so
WorkerThread.run puts it on the output channel), a non-root workflow is put
on the coordinator's own input queue; the second conjunct is the
WorkerThread.run glue showing that a returned item is exactly what lands on
the output channel. -/
theorem C7_coroutine_exception_propagation (gen : Gen)
    (wm : List (WorkType × QueueId)) (inputQ : QueueId) (start : WItem → Nat)
    (fuel : Nat) (st : DriverState) (wf : WItem) (gs : Nat) (v : SendVal)
    (e : PyExc) (h : gen gs (driverSignal v) = .raises e) :
    advance gen wm inputQ (fuel + 1) st wf gs v =
      some (.ok (if wf.root
        then ⟨st, [], [], some { wf with done := true, error := some e }⟩
        else ⟨st, [{ wf with done := true, error := some e }], [], none⟩)) ∧
    (∀ (incoming : WItem) (r : HandleResult),
      WorkflowThread.handle_item gen wm inputQ start fuel st incoming =
        some (.ok r) →
      WorkflowThread.step gen wm inputQ start fuel st incoming =
        some ⟨r.state, incoming, r.inputPuts, r.dispatches, r.ret.toList⟩) := by
  constructor
  · simp only [advance, h]
    by_cases hr : wf.root <;> simp [hr]
  · intro incoming r hres
    simp [WorkflowThread.step, hres]

/-- A root workflow item for concrete driver scenarios. -/
def rootWf : WItem := ⟨5, .workflowItem, none, false, true⟩

/-- A generator that raises at once, for witnesses. -/
def genRaise : Gen := fun _ _ => .raises (.exc 3)

/-- Witness for C7 at a concrete root workflow whose generator raises. -/
theorem C7_coroutine_exception_propagation_witness :
    advance genRaise [] .workflowQ 1 ⟨[], [], 0⟩ rootWf 0 .noneV =
      some (.ok ⟨⟨[], [], 0⟩, [], [],
        some { rootWf with done := true, error := some (.exc 3) }⟩) := by
  have h := C7_coroutine_exception_propagation genRaise [] .workflowQ (fun _ => 0)
    0 ⟨[], [], 0⟩ rootWf 0 .noneV (.exc 3) rfl
  simpa [rootWf] using h.1

/-- Claim C8. A yield of the empty list builds a barrier with no children
and remaining 0, and the transition loop re-enters the generator with None
in the same handle_item call: the fuel-indexed loop steps to itself at the
new suspension state with value None, from the unchanged driver state, so
no pending entry and no queue put arise from that yield. -/
theorem C8_empty_yield_immediate_resume (gen : Gen)
    (wm : List (WorkType × QueueId)) (inputQ : QueueId) (fuel : Nat)
    (st : DriverState) (wf : WItem) (gs gs2 : Nat) (v : SendVal)
    (h : gen gs (driverSignal v) = .yields (.many []) gs2) :
    (Barrier.init wf gs2 (.many [])).items = [] ∧
    (Barrier.init wf gs2 (.many [])).remaining = 0 ∧
    advance gen wm inputQ (fuel + 1) st wf gs v =
      advance gen wm inputQ fuel st wf gs2 .noneV := by
  refine ⟨rfl, rfl, ?_⟩
  simp [advance, h, Barrier.init]

/-- A generator whose initial state yields an empty batch and then
finishes, for witnesses. -/
def genEmptyYield : Gen := fun s _ => if s = 0 then .yields (.many []) 1 else .stopIter

/-- Witness for C8 at a concrete empty-batch yield. -/
theorem C8_empty_yield_immediate_resume_witness :
    (Barrier.init rootWf 1 (.many [])).items = [] ∧
    (Barrier.init rootWf 1 (.many [])).remaining = 0 ∧
    advance genEmptyYield [] .workflowQ 2 ⟨[], [], 0⟩ rootWf 0 .noneV =
      advance genEmptyYield [] .workflowQ 1 ⟨[], [], 0⟩ rootWf 1 .noneV :=
  C8_empty_yield_immediate_resume genEmptyYield [] .workflowQ 1 ⟨[], [], 0⟩
    rootWf 0 1 .noneV rfl

/-- Claim C9. One iteration of WorkerThread.run: when the handler raises,
the exception is captured into the consumed item's error slot and that same
item is the one output-queue put; when the handler succeeds, the returned
item (if any) is the only put and the loop writes no error slot; and the
loop processes its trace one item at a time in order. -/
theorem C9_worker_loop_contract (handler : Handler) (item : WItem) :
    (∀ (e : PyExc) (item2 : WItem), handler item = (.error e, item2) →
      WorkerThread.processOne handler item =
        ({ item2 with error := some e }, [{ item2 with error := some e }])) ∧
    (∀ (next : Option WItem) (item2 : WItem), handler item = (.ok next, item2) →
      WorkerThread.processOne handler item = (item2, next.toList)) ∧
    (∀ rest : List WItem,
      WorkerThread.runTrace handler (item :: rest) =
        (WorkerThread.processOne handler item).2 ++
          WorkerThread.runTrace handler rest) := by
  refine ⟨?_, ?_, fun rest => rfl⟩
  · intro e item2 h
    simp [WorkerThread.processOne, h]
  · intro next item2 h
    simp [WorkerThread.processOne, h]

/-- A handler that raises, for witnesses. -/
def hFail : Handler := fun it => (.error (.exc 9), it)

/-- A handler that returns its item as the next item, for witnesses. -/
def hOk : Handler := fun it => (.ok (some it), it)

/-- Witness for C9 on both handler outcomes at a concrete item. -/
theorem C9_worker_loop_contract_witness :
    WorkerThread.processOne hFail c4Item =
      ({ c4Item with error := some (.exc 9) },
       [{ c4Item with error := some (.exc 9) }]) ∧
    WorkerThread.processOne hOk c4Item = (c4Item, [c4Item]) := by
  have h1 := (C9_worker_loop_contract hFail c4Item).1 (.exc 9) c4Item rfl
  have h2 := (C9_worker_loop_contract hOk c4Item).2.1 (some c4Item) c4Item rfl
  exact ⟨h1, by simpa using h2⟩

/-- A fetch item with a non-empty post dict. -/
def c10Item : FetchItem := FetchItem.init "http://example.com/" (some [("a", "b")]) 30

/-- Claim C10 counterexample. With a non-empty post dict the NameError is
raised by `urllib.urlencode` before the try statement is entered, so the
finally block — and with it the rate-limit sleep — does not run (the claim
asserts it still runs); no request is attempted and the handler raises. -/
theorem C10_counterexample :
    (FetchThread.handle_item .urlError c10Item).finallyRan = false ∧
    (FetchThread.handle_item .urlError c10Item).requested = false ∧
    (FetchThread.handle_item .urlError c10Item).result =
      .error (.nameError "urllib") := by
  refine ⟨rfl, rfl, rfl⟩

/-- Claim C10 as amended. For every fetch item whose post field is truthy,
handle_item raises NameError (urllib is unbound) before any HTTP request;
the worker loop then returns the item with its error slot set and no
response field populated; and since the NameError precedes the try
statement, the finally block with the rate-limit sleep does not run. -/
theorem C10_post_nameerror_skips_finally (web : HttpResult) (item : FetchItem)
    (hpost : dictTruthy item.post = true) :
    FetchThread.handle_item web item =
      ⟨.error (.nameError "urllib"), false, false⟩ ∧
    FetchThread.step web item =
      ({ item with error := some (.nameError "urllib") },
       [{ item with error := some (.nameError "urllib") }]) := by
  have hnb : nameBound "urllib" = false := by decide
  have h1 : FetchThread.handle_item web item =
      ⟨.error (.nameError "urllib"), false, false⟩ := by
    simp [FetchThread.handle_item, hpost, hnb]
  refine ⟨h1, ?_⟩
  simp [FetchThread.step, h1]

/-- Witness for C10's amended theorem at a concrete posting fetch item. -/
theorem C10_post_nameerror_skips_finally_witness :
    FetchThread.handle_item .urlError c10Item =
      ⟨.error (.nameError "urllib"), false, false⟩ ∧
    FetchThread.step .urlError c10Item =
      ({ c10Item with error := some (.nameError "urllib") },
       [{ c10Item with error := some (.nameError "urllib") }]) :=
  C10_post_nameerror_skips_finally .urlError c10Item (by decide)

end Workers
